import Mathlib

/-!
Shallow embedding of the site_backup application layer (src/app.go) and,
where the `services` package is not part of the sources, a spec-modelled
session controller. Machine integers are modelled as `Int` (Go `int`);
Go strings as Lean `String`; the `json.Marshal` step at the end of every
handler is modelled as returning the structured `ApiResponse` value itself
(the code ignores marshal errors).
-/

namespace SiteBackup

/-- Capture configuration `services.CaptureOptions` as consumed by app.go
    (fields read/written at src/app.go lines 98-145). -/
structure CaptureOptions where
  includeImages   : Bool
  includeStyles   : Bool
  includeScripts  : Bool
  followRedirects : Bool
  timeout         : Int
  createZip       : Bool
  maxFiles        : Int
deriving DecidableEq, Repr

/-- A well-formed JSON options object, field by field; `none` means the key
    is absent from the payload. Embeds the input to `json.Unmarshal` at
    src/app.go line 100. -/
structure OptionsPayload where
  includeImages   : Option Bool
  includeStyles   : Option Bool
  includeScripts  : Option Bool
  followRedirects : Option Bool
  timeout         : Option Int
  createZip       : Option Bool
  maxFiles        : Option Int
deriving DecidableEq, Repr

/-- The three outcomes of the options-string branch at src/app.go
    lines 98-124: the string is empty, it is non-empty but fails to parse,
    or it parses to a JSON object. -/
inductive OptionsJson where
  | empty     : OptionsJson
  | malformed : OptionsJson
  | parsed    : OptionsPayload → OptionsJson
deriving DecidableEq, Repr

/-- Go `encoding/json` semantics for unmarshalling a JSON object into a
    zero-valued `CaptureOptions` struct: a key that is absent leaves the
    field at its zero value (`false` for bool, `0` for int). -/
def unmarshalOptions (p : OptionsPayload) : CaptureOptions where
  includeImages   := p.includeImages.getD false
  includeStyles   := p.includeStyles.getD false
  includeScripts  := p.includeScripts.getD false
  followRedirects := p.followRedirects.getD false
  timeout         := p.timeout.getD 0
  createZip       := p.createZip.getD false
  maxFiles        := p.maxFiles.getD 0

/-- The literal default options built at src/app.go lines 103-111 and
    115-123 (both occurrences are identical). -/
def defaultOptions : CaptureOptions where
  includeImages   := true
  includeStyles   := true
  includeScripts  := true
  followRedirects := true
  timeout         := 60
  createZip       := true
  maxFiles        := 200

/-- The options-string branch of `CapturePage` (src/app.go lines 98-124):
    empty string and unmarshal failure both select `defaultOptions`; a
    successful parse uses the unmarshalled struct as-is. -/
def resolveOptions : OptionsJson → CaptureOptions
  | .empty     => defaultOptions
  | .malformed => defaultOptions
  | .parsed p  => unmarshalOptions p

/-- The post-parse normalisation at src/app.go lines 126-143: two sequential
    clamps on `Timeout`, two on `MaxFiles`, then `CreateZip` forced true. -/
def normalizeOptions (o : CaptureOptions) : CaptureOptions :=
  let t₁ := if o.timeout < 60 then 60 else o.timeout
  let t₂ := if t₁ > 300 then 300 else t₁
  let m₁ := if o.maxFiles < 200 then 200 else o.maxFiles
  let m₂ := if m₁ > 1000 then 1000 else m₁
  { o with timeout := t₂, maxFiles := m₂, createZip := true }

/-- The options the capture session observes for a given options input:
    the value of `options` at src/app.go line 181, where it is handed to
    `pageCaptureService.CapturePage`. -/
def sessionOptions (i : OptionsJson) : CaptureOptions :=
  normalizeOptions (resolveOptions i)

/-- One discovered sub-resource and its download state, as read by app.go
    (the `file.Status` switch at src/app.go lines 162-173) and described in
    the spec data model. Statuses and phases are Go strings in the code. -/
structure FileEntry where
  url       : String
  localPath : String
  status    : String
deriving DecidableEq, Repr

/-- Progress snapshot `services.ProgressInfo` as read by app.go (fields at
    src/app.go lines 148-176 and 48): phase, counters, current file, file
    list. -/
structure ProgressInfo where
  phase          : String
  totalFiles     : Int
  completedFiles : Int
  currentFile    : String
  fileList       : List FileEntry
deriving DecidableEq, Repr

/-- Result record `services.CaptureResult` as read by app.go (fields at
    src/app.go lines 210-214). -/
structure CaptureResult where
  statusCode    : Int
  contentLength : Int
  duration      : Int
  content       : String
deriving DecidableEq, Repr

/-- The Go pair `(result, err)` returned by
    `pageCaptureService.CapturePage`: a non-nil error (its message string),
    a nil result with nil error, or a non-nil result with nil error. -/
inductive ServiceOutcome where
  | failure   : String → ServiceOutcome
  | nilResult : ServiceOutcome
  | success   : CaptureResult → ServiceOutcome
deriving DecidableEq, Repr

/-- Response struct `ApiResponse` (src/app.go lines 80-84): code, message,
    optional data payload (`omitempty`, hence `Option`). -/
structure ApiResponse (α : Type) where
  code : Int
  msg  : String
  data : Option α
deriving DecidableEq, Repr

/-- Drop leading whitespace characters from a character list. -/
def dropLeadSpace : List Char → List Char
  | [] => []
  | c :: rest => if c.isWhitespace then dropLeadSpace rest else c :: rest

/-- Go `strings.TrimSpace`: remove leading and trailing whitespace. -/
def trimSpace (s : String) : String :=
  String.mk (List.reverse (dropLeadSpace (List.reverse (dropLeadSpace s.toList))))

/-- Test whether the character list `n` is an initial segment of `h`. -/
def leadsWith : List Char → List Char → Bool
  | [], _ => true
  | _ :: _, [] => false
  | a :: as, b :: bs => a == b && leadsWith as bs

/-- Occurrence of `n` as a contiguous segment of `h`, scanning left to
    right. -/
def containsSubAux (n : List Char) : List Char → Bool
  | [] => n.isEmpty
  | c :: rest => leadsWith n (c :: rest) || containsSubAux n rest

/-- Go `strings.Contains hay needle`. -/
def containsSub (hay needle : String) : Bool :=
  containsSubAux needle.toList hay.toList

/-- The error-message dispatch of `CapturePage` (src/app.go lines 186-195):
    the service error string is classified by substring containment and a
    human-readable prefix is prepended. -/
def errorMsgFor (e : String) : String :=
  if containsSub e "HTTP错误" then "无法访问页面: " ++ e
  else if containsSub e "不支持的内容类型" then "页面类型不支持: " ++ e
  else if containsSub e "请求失败" then "网络请求失败: " ++ e
  else "页面抓取失败: " ++ e

/-- The tail of `CapturePage` (src/app.go lines 182-221): a non-nil error
    yields code 500 with the dispatched message, a nil result yields code
    500, and a non-nil result yields code 200 carrying it. -/
def serviceDispatch : ServiceOutcome → ApiResponse CaptureResult
  | .failure e => ⟨500, errorMsgFor e, none⟩
  | .nilResult => ⟨500, "页面抓取返回空结果", none⟩
  | .success r => ⟨200, "页面抓取成功", some r⟩

/-- Handler `App.CapturePage` (src/app.go lines 87-222). The capture service is the
    parameter `svc`, a state transformer over the session's `ProgressInfo`
    (the service-owned state app.go observes); `s` is that state at call
    time. The empty/whitespace URL guard returns before touching the
    service; otherwise the service runs on `sessionOptions i` and its
    outcome is dispatched. Progress-callback registration (lines 148-178)
    is a pure side channel and adds nothing to the returned value. -/
def CapturePage (url : String) (i : OptionsJson)
    (svc : CaptureOptions → ProgressInfo → ServiceOutcome × ProgressInfo)
    (s : ProgressInfo) : ApiResponse CaptureResult × ProgressInfo :=
  if url = "" ∨ trimSpace url = "" then (⟨400, "URL不能为空", none⟩, s)
  else
    let out := svc (sessionOptions i) s
    (serviceDispatch out.1, out.2)

/-- Modelled from the spec: `services.PageCaptureService.GetCurrentProgress`
    is not under src/; per the spec's Progress Tracker contract it is a pure
    snapshot of the current `ProgressInfo`, safe at any time. -/
def GetCurrentProgress (s : ProgressInfo) : ProgressInfo := s

/-- Handler `App.GetCaptureProgress` (src/app.go lines 225-237): reads the snapshot
    and unconditionally wraps it in a code-200 response; the state is not
    modified. -/
def GetCaptureProgress (s : ProgressInfo) :
    ApiResponse ProgressInfo × ProgressInfo :=
  (⟨200, "success", some (GetCurrentProgress s)⟩, s)

/-- A phase string is terminal (per the spec state machine). -/
def isTerminalPhase (p : String) : Bool :=
  p == "completed" || p == "error" || p == "stopped"

/-- A phase string denotes an active session: neither idle nor terminal. -/
def isActivePhase (p : String) : Bool :=
  !(p == "idle") && !(isTerminalPhase p)

/-- The error string the spec-modelled controller reports for a capture
    requested while a session is active (`SessionBusyError`). -/
def sessionBusyMsg : String := "已有抓取任务正在进行"

/-- Modelled from the spec: `services.PageCaptureService.CapturePage` is not
    under src/; per the spec's Capture Session Controller contract, a call
    while the session is active (phase neither idle nor terminal) is
    rejected with `SessionBusyError` and leaves the session state
    untouched; otherwise the capture runs (`run`, left abstract since the
    spec does not determine it). -/
def serviceCapturePage
    (run : CaptureOptions → ProgressInfo → ServiceOutcome × ProgressInfo)
    (o : CaptureOptions) (s : ProgressInfo) :
    ServiceOutcome × ProgressInfo :=
  if isActivePhase s.phase then (.failure sessionBusyMsg, s) else run o s

/-! Concrete fixtures used by witnesses and counterexamples. -/

/-- A concrete successful capture result. -/
def demoResult : CaptureResult := ⟨200, 1024, 37, "<html></html>"⟩

/-- The idle progress snapshot before any capture. -/
def idleProgress : ProgressInfo := ⟨"idle", 0, 0, "", []⟩

/-- A progress snapshot of an active (downloading) session. -/
def busyProgress : ProgressInfo :=
  ⟨"downloading", 5, 2, "http://example.com/a.png",
    [⟨"http://example.com/a.png", "res/a.png", "downloading"⟩]⟩

/-- A concrete service behaviour: returns a nil result, leaves the state. -/
def demoSvc : CaptureOptions → ProgressInfo → ServiceOutcome × ProgressInfo :=
  fun _ s => (.nilResult, s)

/-- A concrete service behaviour: succeeds with `demoResult`. -/
def demoSvcOk : CaptureOptions → ProgressInfo → ServiceOutcome × ProgressInfo :=
  fun _ s => (.success demoResult, s)

/-- A payload with out-of-range numbers and some keys absent. -/
def extremePayload : OptionsPayload :=
  ⟨some false, some true, none, some true, some 100000, some false, some (-7)⟩

/-- A payload with every key absent: the parse of the JSON text consisting
    of an empty object. -/
def emptyPayload : OptionsPayload := ⟨none, none, none, none, none, none, none⟩

/-! Shared lemmas. -/

/-- On a URL that is not blank, `CapturePage` hands `sessionOptions i` to
    the service and dispatches its outcome. -/
lemma capturePage_validUrl (url : String) (i : OptionsJson)
    (svc : CaptureOptions → ProgressInfo → ServiceOutcome × ProgressInfo)
    (s : ProgressInfo) (h : trimSpace url ≠ "") :
    CapturePage url i svc s
      = (serviceDispatch (svc (sessionOptions i) s).1,
         (svc (sessionOptions i) s).2) := by
  have hne : ¬(url = "" ∨ trimSpace url = "") := by
    rintro (rfl | h₂)
    · exact h rfl
    · exact h h₂
  simp [CapturePage, hne]

/-- C1: for every `CapturePage` invocation with a non-blank URL, whatever
    timeout and maxFiles appear in the options input (out-of-range, missing
    keys, malformed or absent payload), the options the session observes
    (the argument `CapturePage` hands to the capture service) have
    `timeout` in [60,300] and `maxFiles` in [200,1000]. -/
theorem capturePage_observed_options_clamped (url : String) (i : OptionsJson)
    (svc : CaptureOptions → ProgressInfo → ServiceOutcome × ProgressInfo)
    (s : ProgressInfo) (h : trimSpace url ≠ "") :
    CapturePage url i svc s
      = (serviceDispatch (svc (sessionOptions i) s).1,
         (svc (sessionOptions i) s).2) ∧
    60 ≤ (sessionOptions i).timeout ∧ (sessionOptions i).timeout ≤ 300 ∧
    200 ≤ (sessionOptions i).maxFiles ∧ (sessionOptions i).maxFiles ≤ 1000 := by
  refine ⟨capturePage_validUrl url i svc s h, ?_⟩
  cases i <;>
    simp only [sessionOptions, normalizeOptions, resolveOptions,
      defaultOptions, unmarshalOptions] <;>
    split_ifs <;> omega

/-- Witness for C1 at a concrete invocation: URL non-blank, payload with
    timeout 100000 and maxFiles -7; the session observes 300 and 200. -/
theorem capturePage_observed_options_clamped_witness :
    trimSpace "http://example.com" ≠ "" ∧
    (CapturePage "http://example.com" (.parsed extremePayload) demoSvc idleProgress
      = (serviceDispatch (demoSvc (sessionOptions (.parsed extremePayload)) idleProgress).1,
         (demoSvc (sessionOptions (.parsed extremePayload)) idleProgress).2) ∧
     60 ≤ (sessionOptions (.parsed extremePayload)).timeout ∧
     (sessionOptions (.parsed extremePayload)).timeout ≤ 300 ∧
     200 ≤ (sessionOptions (.parsed extremePayload)).maxFiles ∧
     (sessionOptions (.parsed extremePayload)).maxFiles ≤ 1000) :=
  ⟨by decide,
   capturePage_observed_options_clamped "http://example.com"
     (.parsed extremePayload) demoSvc idleProgress (by decide)⟩

/-- C2: for every options input (true, false, or absent `createZip` field,
    malformed or absent payload), the options the session observes have
    `createZip` equal to true; no input disables archiving. -/
theorem sessionOptions_createZip_always_true (i : OptionsJson) :
    (sessionOptions i).createZip = true := rfl

/-- C3 counterexample: a non-empty but malformed options string is NOT
    rejected as an InvalidInput (code 400) error — with a non-blank URL the
    capture service still runs and the call can return a code-200 success,
    refuting the claim that such a call is rejected immediately without a
    capture being performed. -/
theorem capturePage_malformed_options_not_rejected :
    (CapturePage "http://example.com" .malformed demoSvcOk idleProgress).1
      = ⟨200, "页面抓取成功", some demoResult⟩ ∧
    (CapturePage "http://example.com" .malformed demoSvcOk idleProgress).1.code
      ≠ 400 := by
  constructor
  · rfl
  · decide

/-- C3 amended: a non-empty but malformed options string is not rejected;
    the parse failure falls back to the full default options, so the call
    behaves exactly as a call with no options payload at all (src/app.go
    lines 100-112). Only the URL guard produces an InvalidInput rejection. -/
theorem capturePage_malformed_options_use_defaults (url : String)
    (svc : CaptureOptions → ProgressInfo → ServiceOutcome × ProgressInfo)
    (s : ProgressInfo) :
    CapturePage url .malformed svc s = CapturePage url .empty svc s := rfl

/-- C4 counterexample: for the well-formed payload with every key absent
    (the parse of an empty JSON object), the session observes all four
    documented-default booleans as `false` (the Go zero value), not `true`,
    refuting the claim for valid JSON objects lacking those keys. -/
theorem sessionOptions_omitted_booleans_are_false :
    (sessionOptions (.parsed emptyPayload)).includeImages = false ∧
    (sessionOptions (.parsed emptyPayload)).includeStyles = false ∧
    (sessionOptions (.parsed emptyPayload)).includeScripts = false ∧
    (sessionOptions (.parsed emptyPayload)).followRedirects = false := by
  decide

/-- C4 amended: the booleans default to true only when the options string
    is empty or fails to parse; in a well-formed payload each omitted
    boolean key unmarshals to the Go zero value `false` and is observed as
    such (`createZip` excepted, being forced true later). -/
theorem sessionOptions_boolean_defaults (p : OptionsPayload) :
    (sessionOptions .empty).includeImages = true ∧
    (sessionOptions .empty).includeStyles = true ∧
    (sessionOptions .empty).includeScripts = true ∧
    (sessionOptions .empty).followRedirects = true ∧
    (sessionOptions .malformed).includeImages = true ∧
    (sessionOptions .malformed).includeStyles = true ∧
    (sessionOptions .malformed).includeScripts = true ∧
    (sessionOptions .malformed).followRedirects = true ∧
    (sessionOptions (.parsed p)).includeImages = p.includeImages.getD false ∧
    (sessionOptions (.parsed p)).includeStyles = p.includeStyles.getD false ∧
    (sessionOptions (.parsed p)).includeScripts = p.includeScripts.getD false ∧
    (sessionOptions (.parsed p)).followRedirects
      = p.followRedirects.getD false :=
  ⟨rfl, rfl, rfl, rfl, rfl, rfl, rfl, rfl, rfl, rfl, rfl, rfl⟩

/-- C5: a URL that is empty or only whitespace is rejected with the
    InvalidInput response (code 400) immediately: the session state is
    returned untouched and the result does not depend on the capture
    service at all (the service is never consulted). -/
theorem capturePage_blank_url_rejected (url : String) (i : OptionsJson)
    (svc svc' : CaptureOptions → ProgressInfo → ServiceOutcome × ProgressInfo)
    (s : ProgressInfo) (h : trimSpace url = "") :
    CapturePage url i svc s = (⟨400, "URL不能为空", none⟩, s) ∧
    CapturePage url i svc' s = CapturePage url i svc s := by
  have hc : url = "" ∨ trimSpace url = "" := Or.inr h
  constructor
  · simp [CapturePage, hc]
  · simp [CapturePage, hc]

/-- Witness for C5 at the whitespace URL consisting of three spaces, with
    two different service behaviours. -/
theorem capturePage_blank_url_rejected_witness :
    trimSpace "   " = "" ∧
    (CapturePage "   " .empty demoSvc idleProgress
      = (⟨400, "URL不能为空", none⟩, idleProgress) ∧
     CapturePage "   " .empty demoSvcOk idleProgress
      = CapturePage "   " .empty demoSvc idleProgress) :=
  ⟨by decide,
   capturePage_blank_url_rejected "   " .empty demoSvc demoSvcOk idleProgress
     (by decide)⟩

/-- C6: a `CapturePage` call made while a session is active (phase neither
    idle nor terminal) is answered with the SessionBusyError and the active
    session's state — phase, fileList and progress counters, i.e. the whole
    `ProgressInfo` — is unchanged, both at the controller level and through
    the app handler (which reports it as a code-500 failure). -/
theorem capturePage_busy_session_unchanged (url : String) (i : OptionsJson)
    (run : CaptureOptions → ProgressInfo → ServiceOutcome × ProgressInfo)
    (s : ProgressInfo) (hurl : trimSpace url ≠ "")
    (hbusy : isActivePhase s.phase = true) :
    serviceCapturePage run (sessionOptions i) s = (.failure sessionBusyMsg, s) ∧
    CapturePage url i (serviceCapturePage run) s
      = (⟨500, errorMsgFor sessionBusyMsg, none⟩, s) := by
  have hsvc : serviceCapturePage run (sessionOptions i) s
      = (.failure sessionBusyMsg, s) := by
    simp [serviceCapturePage, hbusy]
  refine ⟨hsvc, ?_⟩
  rw [capturePage_validUrl url i (serviceCapturePage run) s hurl, hsvc]
  rfl

/-- Witness for C6 at a concrete downloading-phase state. -/
theorem capturePage_busy_session_unchanged_witness :
    trimSpace "http://example.com" ≠ "" ∧
    isActivePhase busyProgress.phase = true ∧
    (serviceCapturePage demoSvc (sessionOptions .empty) busyProgress
      = (.failure sessionBusyMsg, busyProgress) ∧
     CapturePage "http://example.com" .empty (serviceCapturePage demoSvc)
        busyProgress
      = (⟨500, errorMsgFor sessionBusyMsg, none⟩, busyProgress)) :=
  ⟨by decide, by decide,
   capturePage_busy_session_unchanged "http://example.com" .empty demoSvc
     busyProgress (by decide) (by decide)⟩

/-- C7: `GetCaptureProgress` never fails: on every service state, including
    the idle snapshot, it returns a code-200 success response carrying the
    current `ProgressInfo` snapshot. -/
theorem getCaptureProgress_always_succeeds (s : ProgressInfo) :
    (GetCaptureProgress s).1
      = ⟨200, "success", some (GetCurrentProgress s)⟩ ∧
    (GetCaptureProgress s).1.code = 200 ∧
    (GetCaptureProgress s).1.data = some s := ⟨rfl, rfl, rfl⟩

/-- C8: `GetCaptureProgress` is a pure read: it leaves the state unchanged,
    and a second call on the state left by the first returns the identical
    response. -/
theorem getCaptureProgress_idempotent (s : ProgressInfo) :
    (GetCaptureProgress s).2 = s ∧
    (GetCaptureProgress (GetCaptureProgress s).2).1
      = (GetCaptureProgress s).1 := ⟨rfl, rfl⟩

/-- C9 counterexample: an archive failure and a session-busy failure — two
    different classes of the error taxonomy — produce responses that agree
    on every field other than the human-readable message (code 500, no
    data), and even their messages share the one generic fallback prefix of
    the dispatch at src/app.go lines 186-195; hence the response carries no
    machine-checkable kind, beyond the message itself, that distinguishes
    the taxonomy classes. -/
theorem capturePage_error_kinds_collapse :
    (CapturePage "http://example.com" .empty
        (fun _ s => (.failure "创建ZIP归档失败", s)) idleProgress).1.code
      = (CapturePage "http://example.com" .empty
          (fun _ s => (.failure sessionBusyMsg, s)) idleProgress).1.code ∧
    (CapturePage "http://example.com" .empty
        (fun _ s => (.failure "创建ZIP归档失败", s)) idleProgress).1.code = 500 ∧
    (CapturePage "http://example.com" .empty
        (fun _ s => (.failure "创建ZIP归档失败", s)) idleProgress).1.data = none ∧
    (CapturePage "http://example.com" .empty
        (fun _ s => (.failure sessionBusyMsg, s)) idleProgress).1.data = none ∧
    errorMsgFor "创建ZIP归档失败" = "页面抓取失败: " ++ "创建ZIP归档失败" ∧
    errorMsgFor sessionBusyMsg = "页面抓取失败: " ++ sessionBusyMsg := by
  decide

/-- C9 amended: every failing `CapturePage` invocation returns code 400
    (invalid input) or code 500 (everything else) with a human-readable
    message and no data; for service failures the message is the error
    string under a prefix that distinguishes only HTTP errors, unsupported
    content types, and network-request failures — archive and session-busy
    failures share the generic prefix, and no structured kind field beyond
    the numeric code exists on `ApiResponse`. -/
theorem capturePage_failure_reporting (url : String) (i : OptionsJson)
    (svc : CaptureOptions → ProgressInfo → ServiceOutcome × ProgressInfo)
    (s : ProgressInfo) (e : String) (hurl : trimSpace url ≠ "")
    (hf : (svc (sessionOptions i) s).1 = .failure e) :
    (CapturePage url i svc s).1.code = 500 ∧
    (CapturePage url i svc s).1.msg = errorMsgFor e ∧
    (CapturePage url i svc s).1.data = none := by
  rw [capturePage_validUrl url i svc s hurl, hf]
  exact ⟨rfl, rfl, rfl⟩

/-- Witness for the amended C9 at a concrete HTTP-error failure. -/
theorem capturePage_failure_reporting_witness :
    trimSpace "http://example.com" ≠ "" ∧
    ((fun (_ : CaptureOptions) (s : ProgressInfo) =>
        ((ServiceOutcome.failure "HTTP错误: 404"), s))
      (sessionOptions .empty) idleProgress).1 = .failure "HTTP错误: 404" ∧
    ((CapturePage "http://example.com" .empty
        (fun _ s => (.failure "HTTP错误: 404", s)) idleProgress).1.code = 500 ∧
     (CapturePage "http://example.com" .empty
        (fun _ s => (.failure "HTTP错误: 404", s)) idleProgress).1.msg
       = errorMsgFor "HTTP错误: 404" ∧
     (CapturePage "http://example.com" .empty
        (fun _ s => (.failure "HTTP错误: 404", s)) idleProgress).1.data = none) :=
  ⟨by decide, rfl,
   capturePage_failure_reporting "http://example.com" .empty
     (fun _ s => (.failure "HTTP错误: 404", s)) idleProgress "HTTP错误: 404"
     (by decide) rfl⟩

/-- C10: every `CapturePage` response has code 400 (blank URL), 500
    (service error or nil result) or 200 (non-nil result with nil error),
    and code 200 holds exactly when the URL passed the guard and the
    service returned a non-nil result with no error; in particular a nil
    result with nil error yields code 500, never a success. -/
theorem capturePage_code_classification (url : String) (i : OptionsJson)
    (svc : CaptureOptions → ProgressInfo → ServiceOutcome × ProgressInfo)
    (s : ProgressInfo) :
    ((CapturePage url i svc s).1.code
      = if url = "" ∨ trimSpace url = "" then 400
        else match (svc (sessionOptions i) s).1 with
          | .success _ => 200
          | .failure _ => 500
          | .nilResult => 500) ∧
    ((CapturePage url i svc s).1.code = 200 ↔
      (¬(url = "" ∨ trimSpace url = "") ∧
       ∃ r, (svc (sessionOptions i) s).1 = .success r)) ∧
    ((CapturePage url i svc s).1.code = 200 ∨
     (CapturePage url i svc s).1.code = 400 ∨
     (CapturePage url i svc s).1.code = 500) := by
  by_cases hc : url = "" ∨ trimSpace url = ""
  · simp [CapturePage, hc]
  · simp only [CapturePage, hc, if_neg hc, if_false]
    cases hout : (svc (sessionOptions i) s).1 <;>
      simp [serviceDispatch, hout, hc]

end SiteBackup
